import Mathlib

/-!
Shallow embedding of `quadratic-core/src/formulas/errors.rs`: the error value
model (`FormulaError`), the error-kind taxonomy (`FormulaErrorMsg`), their
`Display` renderings, the span-attachment protocol, the default conversion
from a kind to an error, and the `internal_error_value!` macro's two
compile-time configurations.
-/

/-- Modelled from the spec: `Span` is defined outside this module
(`super::Span`); per the spec it is a pair of unsigned integer character
offsets `start` and `end` into the formula source text. -/
structure Span where
  start : Nat
  «end» : Nat
  deriving DecidableEq, Repr

/-- The `FormulaErrorMsg` enum: the closed taxonomy of error kinds.
Payloads follow the source: `InternalError` carries a message string,
`Unterminated` a construct name, `Expected` an expected description and an
optional actual description, `ArraySizeMismatch` two `(rows, cols)` pairs. -/
inductive FormulaErrorMsg where
  | Unimplemented
  | UnknownError
  | InternalError (s : String)
  | Unterminated (s : String)
  | Expected (expected : String) (got : Option String)
  | ArraySizeMismatch (expected : Nat × Nat) (got : Nat × Nat)
  | NonRectangularArray
  | BadArgumentCount
  | BadFunctionName
  | BadCellReference
  | BadNumber
  | CircularReference
  | Overflow
  | DivideByZero
  | NegativeExponent
  | IndexOutOfBounds
  deriving DecidableEq, Repr

/-- The `FormulaError` struct: an error kind plus an optional source span. -/
structure FormulaError where
  span : Option Span
  msg : FormulaErrorMsg
  deriving DecidableEq, Repr

/-- Rust's `Debug` formatting of a `(usize, usize)` tuple, as used by the
`{expected:?}` and `{got:?}` format specifiers in the
`ArraySizeMismatch` display arm. -/
def fmtPairDebug (p : Nat × Nat) : String :=
  "(" ++ toString p.1 ++ ", " ++ toString p.2 ++ ")"

/-- The `impl fmt::Display for FormulaErrorMsg` match, arm by arm. -/
def FormulaErrorMsg.display : FormulaErrorMsg → String
  | .Unimplemented => "This feature is unimplemented"
  | .UnknownError => "(unknown error)"
  | .InternalError s =>
      "Internal error: " ++ s ++
        "\nThis is a bug in Quadratic, not your formula. Please report this to us!"
  | .Unterminated s => "This " ++ s ++ " never ends"
  | .Expected expected (some got) => "Expected " ++ expected ++ ", got " ++ got
  | .Expected expected none => "Expected " ++ expected
  | .ArraySizeMismatch expected got =>
      "Array size mismatch: expected " ++ fmtPairDebug expected ++
        ", got " ++ fmtPairDebug got
  | .NonRectangularArray => "Array must be rectangular"
  | .BadArgumentCount => "Bad argument count"
  | .BadFunctionName => "There is no function with this name"
  | .BadCellReference => "Bad cell reference"
  | .BadNumber => "Bad numeric literal"
  | .CircularReference => "Circular reference"
  | .Overflow => "Numeric overflow"
  | .DivideByZero => "Divide by zero"
  | .NegativeExponent => "Negative exponent"
  | .IndexOutOfBounds => "Index out of bounds"

/-- The `impl fmt::Display for FormulaError`: with a span, prefix with
`column {start} to {end}: `; otherwise just the message. -/
def FormulaError.display (e : FormulaError) : String :=
  match e.span with
  | some span =>
      "column " ++ toString span.start ++ " to " ++ toString span.«end» ++
        ": " ++ e.msg.display
  | none => e.msg.display

/-- `FormulaError::with_span`: attaches a span only if none is present. -/
def FormulaError.with_span (e : FormulaError) (span : Span) : FormulaError :=
  match e.span with
  | none => { e with span := some span }
  | some _ => e

/-- `FormulaErrorMsg::with_span`: builds a `FormulaError` with the span. -/
def FormulaErrorMsg.with_span (msg : FormulaErrorMsg) (span : Span) : FormulaError :=
  { span := some span, msg := msg }

/-- `FormulaErrorMsg::without_span`: builds a `FormulaError` with no span. -/
def FormulaErrorMsg.without_span (msg : FormulaErrorMsg) : FormulaError :=
  { span := none, msg := msg }

/-- `impl From<T> for FormulaError` (at `T = FormulaErrorMsg`, where the
inner `Into` conversion is the identity): converts via `without_span`. -/
def FormulaError.fromMsg (msg : FormulaErrorMsg) : FormulaError :=
  msg.without_span

/-- The `internal_error_value!` macro. Its two `cfg` branches are selected
by the compile-time condition `all(debug_assertions, not(wasm32))`, modelled
here as the Boolean `debugNative`; the debug branch panics with the message
(modelled as `Except.error`), the release branch returns
`InternalError(msg).without_span()` (modelled as `Except.ok`). -/
def internal_error_value (debugNative : Bool) (msg : String) :
    Except String FormulaError :=
  if debugNative then
    Except.error msg
  else
    Except.ok (FormulaErrorMsg.InternalError msg).without_span

/-- Claim C1: every `FormulaErrorMsg` variant renders to exactly the fixed
message text of the rendering table: `Unimplemented` to
"This feature is unimplemented", `UnknownError` to "(unknown error)",
`Unterminated c` to "This c never ends", `Expected e (some g)` to
"Expected e, got g", `Expected e none` to "Expected e",
`NonRectangularArray` to "Array must be rectangular", `BadArgumentCount` to
"Bad argument count", `BadFunctionName` to
"There is no function with this name", `BadCellReference` to
"Bad cell reference", `BadNumber` to "Bad numeric literal",
`CircularReference` to "Circular reference", `Overflow` to
"Numeric overflow", `DivideByZero` to "Divide by zero", `NegativeExponent`
to "Negative exponent", `IndexOutOfBounds` to "Index out of bounds"; in
particular `Expected "a number" (some "a string")` renders exactly
"Expected a number, got a string". -/
theorem formulaErrorMsg_display_table :
    FormulaErrorMsg.Unimplemented.display = "This feature is unimplemented" ∧
    FormulaErrorMsg.UnknownError.display = "(unknown error)" ∧
    (∀ c : String,
      (FormulaErrorMsg.Unterminated c).display = "This " ++ c ++ " never ends") ∧
    (∀ e g : String,
      (FormulaErrorMsg.Expected e (some g)).display =
        "Expected " ++ e ++ ", got " ++ g) ∧
    (∀ e : String,
      (FormulaErrorMsg.Expected e none).display = "Expected " ++ e) ∧
    FormulaErrorMsg.NonRectangularArray.display = "Array must be rectangular" ∧
    FormulaErrorMsg.BadArgumentCount.display = "Bad argument count" ∧
    FormulaErrorMsg.BadFunctionName.display =
      "There is no function with this name" ∧
    FormulaErrorMsg.BadCellReference.display = "Bad cell reference" ∧
    FormulaErrorMsg.BadNumber.display = "Bad numeric literal" ∧
    FormulaErrorMsg.CircularReference.display = "Circular reference" ∧
    FormulaErrorMsg.Overflow.display = "Numeric overflow" ∧
    FormulaErrorMsg.DivideByZero.display = "Divide by zero" ∧
    FormulaErrorMsg.NegativeExponent.display = "Negative exponent" ∧
    FormulaErrorMsg.IndexOutOfBounds.display = "Index out of bounds" ∧
    (FormulaErrorMsg.Expected "a number" (some "a string")).display =
      "Expected a number, got a string" :=
  ⟨rfl, rfl, fun _ => rfl, fun _ _ => rfl, fun _ => rfl, rfl, rfl, rfl, rfl,
    rfl, rfl, rfl, rfl, rfl, rfl, by decide⟩

/-- Claim C2: for every `FormulaError` whose span is already `some s1` and
every span `s2`, `with_span s2` returns the error unchanged, with the span
still `s1` — the first-attached span is never overwritten. -/
theorem with_span_keeps_existing_span (e : FormulaError) (s1 s2 : Span)
    (h : e.span = some s1) :
    e.with_span s2 = e ∧ (e.with_span s2).span = some s1 := by
  simp [FormulaError.with_span, h]

/-- Witness for C2 at a concrete error already carrying span (1, 2). -/
theorem with_span_keeps_existing_span_witness :
    (FormulaError.mk (some (Span.mk 1 2)) .DivideByZero).span =
      some (Span.mk 1 2) ∧
    ((FormulaError.mk (some (Span.mk 1 2)) .DivideByZero).with_span
        (Span.mk 3 4) =
      FormulaError.mk (some (Span.mk 1 2)) .DivideByZero ∧
     ((FormulaError.mk (some (Span.mk 1 2)) .DivideByZero).with_span
        (Span.mk 3 4)).span = some (Span.mk 1 2)) :=
  ⟨rfl, with_span_keeps_existing_span _ (Span.mk 1 2) (Span.mk 3 4) rfl⟩

/-- Claim C3: rendering a `FormulaError` with a present span `sp` is exactly
"column {start} to {end}: {message}" where the message is the rendering of
its kind; with no span it is exactly the message with no prefix. -/
theorem formulaError_display_spec (e : FormulaError) :
    (∀ sp : Span, e.span = some sp →
      e.display = "column " ++ toString sp.start ++ " to " ++
        toString sp.«end» ++ ": " ++ e.msg.display) ∧
    (e.span = none → e.display = e.msg.display) := by
  constructor
  · intro sp h
    simp [FormulaError.display, h]
  · intro h
    simp [FormulaError.display, h]

/-- Witness for C3 at a concrete error with span (5, 9) and at a concrete
error with no span. -/
theorem formulaError_display_spec_witness :
    ((FormulaError.mk (some (Span.mk 5 9)) .DivideByZero).span =
        some (Span.mk 5 9) ∧
      (FormulaError.mk (some (Span.mk 5 9)) .DivideByZero).display =
        "column " ++ toString (Span.mk 5 9).start ++ " to " ++
          toString (Span.mk 5 9).«end» ++ ": " ++
          (FormulaErrorMsg.DivideByZero).display) ∧
    ((FormulaError.mk none .Overflow).span = none ∧
      (FormulaError.mk none .Overflow).display =
        (FormulaErrorMsg.Overflow).display) :=
  ⟨⟨rfl, (formulaError_display_spec
      (FormulaError.mk (some (Span.mk 5 9)) .DivideByZero)).1
        (Span.mk 5 9) rfl⟩,
   ⟨rfl, (formulaError_display_spec (FormulaError.mk none .Overflow)).2 rfl⟩⟩

/-- Claim C4: in the production/release configuration (the
`cfg` condition `all(debug_assertions, not(wasm32))` is false),
`internal_error_value!` with message "unreachable branch X" returns a
`FormulaError` whose kind is `InternalError "unreachable branch X"` and
whose rendered text contains both the literal message and the bug-report
sentence; no panic occurs (the result is `Except.ok`, never
`Except.error`). -/
theorem internal_error_value_release_returns :
    ∃ e : FormulaError,
      internal_error_value false "unreachable branch X" = Except.ok e ∧
      e.msg = FormulaErrorMsg.InternalError "unreachable branch X" ∧
      (∃ pre post : String,
        e.display = pre ++ "unreachable branch X" ++ post) ∧
      (∃ pre post : String,
        e.display = pre ++
          "This is a bug in Quadratic, not your formula. Please report this to us!"
          ++ post) :=
  ⟨(FormulaErrorMsg.InternalError "unreachable branch X").without_span,
   rfl, rfl,
   ⟨"Internal error: ",
    "\nThis is a bug in Quadratic, not your formula. Please report this to us!",
    by decide⟩,
   ⟨"Internal error: unreachable branch X\n", "", by decide⟩⟩

/-- Claim C5: in the development/debug configuration (the `cfg` condition
`all(debug_assertions, not(wasm32))` is true), `internal_error_value!`
panics with the message and never returns a `FormulaError` value to the
caller. -/
theorem internal_error_value_debug_panics :
    ∀ msg : String,
      internal_error_value true msg = Except.error msg ∧
      ∀ e : FormulaError, internal_error_value true msg ≠ Except.ok e :=
  fun _ => ⟨rfl, fun _ h => nomatch h⟩

/-- Claim C6 counterexample: the claim says rendering `InternalError s`
yields a two-line message whose first line is the text `s` itself; at
`s = "x"` that would make the rendering exactly `"x"` followed by the
newline and the bug-report line, but the code prefixes the first line with
"Internal error: ". -/
theorem internalError_display_first_line_cex :
    (FormulaErrorMsg.InternalError "x").display ≠
      "x\nThis is a bug in Quadratic, not your formula. Please report this to us!" := by
  decide

/-- Claim C6 as amended: rendering `InternalError s` produces the text
"Internal error: " followed by `s`, then a newline and a second line
telling the user this is an engine bug (not a formula mistake) and to
report it. -/
theorem internalError_display_amended (s : String) :
    (FormulaErrorMsg.InternalError s).display =
      "Internal error: " ++ s ++ "\n" ++
        "This is a bug in Quadratic, not your formula. Please report this to us!" := by
  rw [String.append_assoc ("Internal error: " ++ s) "\n"
    "This is a bug in Quadratic, not your formula. Please report this to us!"]
  rfl

/-- Claim C7: converting any `FormulaErrorMsg` into a `FormulaError` via
the default `From` conversion yields the same kind and no span. -/
theorem fromMsg_no_span (m : FormulaErrorMsg) :
    (FormulaError.fromMsg m).span = none ∧ (FormulaError.fromMsg m).msg = m :=
  ⟨rfl, rfl⟩

/-- Claim C8: for every `FormulaError` whose span is absent and every span
`s`, `with_span s` returns an error whose span is exactly `some s`. -/
theorem with_span_attaches_when_absent (e : FormulaError) (s : Span)
    (h : e.span = none) : (e.with_span s).span = some s := by
  simp [FormulaError.with_span, h]

/-- Witness for C8 at a concrete spanless error. -/
theorem with_span_attaches_when_absent_witness :
    (FormulaError.mk none .BadNumber).span = none ∧
    ((FormulaError.mk none .BadNumber).with_span (Span.mk 3 4)).span =
      some (Span.mk 3 4) :=
  ⟨rfl, with_span_attaches_when_absent (FormulaError.mk none .BadNumber)
    (Span.mk 3 4) rfl⟩

/-- Claim C9: the error with kind `ArraySizeMismatch (2, 3) (2, 2)` and
span (5, 9) renders to text beginning
"column 5 to 9: Array size mismatch: expected (2, 3), got (2, 2)", the
shapes formatted as debug tuples. -/
theorem arraySizeMismatch_render_scenario :
    ∃ rest : String,
      (FormulaError.mk (some (Span.mk 5 9))
          (.ArraySizeMismatch (2, 3) (2, 2))).display =
        "column 5 to 9: Array size mismatch: expected (2, 3), got (2, 2)" ++
          rest :=
  ⟨"", by decide⟩

/-- Claim C10: `with_span` never changes the error kind — the `msg` field
of the result equals the `msg` field of the receiver, whether or not a span
was already present. -/
theorem with_span_preserves_msg (e : FormulaError) (s : Span) :
    (e.with_span s).msg = e.msg := by
  cases h : e.span <;> simp [FormulaError.with_span, h]
